import Mathlib

/-!
Verification of the `rheader` package initializer
(`src/python/rheader/__init__.py`).

The file is a pure re-export module: it sets `__all__` to four names and
binds those names with `from ._rheader import ...`.  We give a shallow
embedding of the fragment of Python module execution that the file uses:
a namespace is an ordered association list of name-to-object bindings, a
module body is a list of statements, and executing a statement either
extends the namespace or fails with an import error.  The native module
`_rheader` itself is not part of the provided sources, so the semantics is
parametric in its namespace (an `Option` value: `none` means the native
extension cannot be imported at all).
-/

/-- Python runtime values, as far as this module needs them.  `native`
objects come from the native extension and are distinguished by class name
and identity; `strList` is a Python list of strings (the `__all__` value);
`futureFeature` is the `__future__._Feature` object bound by a
`from __future__ import ...` statement; `pyFunc`/`pyClass` are
function/class objects; `headerObj` and `instObj` model the values produced
by the (spec-modelled) parsing entry points. -/
inductive PyObj : Type where
  | native (cls : String) (ident : Nat)
  | strList (ss : List String)
  | futureFeature (feature : String)
  | pyFunc (fname : String)
  | pyClass (cname : String)
  | headerObj (records : List (String × String))
  | instObj (cls : String) (fields : List (String × String))
  deriving DecidableEq

/-- The class (type) name of a Python object. -/
def PyObj.classOf : PyObj → String
  | .native c _ => c
  | .strList _ => "list"
  | .futureFeature _ => "_Feature"
  | .pyFunc _ => "function"
  | .pyClass _ => "type"
  | .headerObj _ => "Header"
  | .instObj c _ => c

/-- A module namespace: ordered name-to-object bindings, most recent
binding first. -/
abbrev NS : Type := List (String × PyObj)

/-- Name lookup in a namespace (the most recent binding wins). -/
def NS.lookup : NS → String → Option PyObj
  | [], _ => none
  | (k, v) :: rest, n => if k = n then some v else NS.lookup rest n

/-- Statements of a Python module body, covering what a package
initializer could contain: `from __future__ import f`, an assignment of a
list of string literals to a name, `from m import n1, ..., nk`, a `def`, a
`class`, or a bare expression statement (a call performing computation). -/
inductive Stmt : Type where
  | futureImport (feature : String)
  | assignStrList (target : String) (value : List String)
  | importFrom (module : String) (names : List String)
  | funcDef (fname : String)
  | clsDef (cname : String)
  | exprCall (fname : String)
  deriving DecidableEq

/-- Import failures: the imported module does not exist, or it exists but
lacks a requested name.  Both surface as `ImportError` in Python 3. -/
inductive ImportError : Type where
  | moduleNotFound (module : String)
  | cannotImportName (nm : String) (module : String)
  deriving DecidableEq

/-- Bind each of `names` in turn from the module namespace `m`, failing
with `cannotImportName` on the first name `m` does not provide (the
semantics of `from m import n1, ..., nk` once `m` is located). -/
def importNames (m : NS) : List String → NS → Except ImportError NS
  | [], ns => Except.ok ns
  | n :: rest, ns =>
    match NS.lookup m n with
    | none => Except.error (ImportError.cannotImportName n "rheader._rheader")
    | some v => importNames m rest ((n, v) :: ns)

/-- Execute one statement.  `rh` is the namespace of the native submodule
`._rheader` when that submodule is importable, `none` otherwise. -/
def execStmt (rh : Option NS) (ns : NS) : Stmt → Except ImportError NS
  | .futureImport f => Except.ok ((f, PyObj.futureFeature f) :: ns)
  | .assignStrList t v => Except.ok ((t, PyObj.strList v) :: ns)
  | .importFrom m names =>
    if m = "._rheader" then
      match rh with
      | none => Except.error (ImportError.moduleNotFound m)
      | some mns => importNames mns names ns
    else Except.error (ImportError.moduleNotFound m)
  | .funcDef f => Except.ok ((f, PyObj.pyFunc f) :: ns)
  | .clsDef c => Except.ok ((c, PyObj.pyClass c) :: ns)
  | .exprCall _ => Except.ok ns

/-- Execute a module body in order, stopping at the first error. -/
def execStmts (rh : Option NS) : List Stmt → NS → Except ImportError NS
  | [], ns => Except.ok ns
  | s :: rest, ns =>
    match execStmt rh ns s with
    | Except.error e => Except.error e
    | Except.ok ns2 => execStmts rh rest ns2

/-- The `__all__` list literal of `__init__.py`, lines 11-16. -/
def allList : List String :=
  ["Header", "Keyword", "read_header", "read_header_to_class"]

/-- The names imported from `._rheader` on line 19 of `__init__.py`. -/
def fourNames : List String :=
  ["Header", "Keyword", "read_header", "read_header_to_class"]

/-- The module body of `src/python/rheader/__init__.py`: the
`from __future__ import annotations` statement (line 9), the `__all__`
assignment (lines 11-16) and the re-export import (line 19). -/
def moduleBody : List Stmt :=
  [Stmt.futureImport "annotations",
   Stmt.assignStrList "__all__" allList,
   Stmt.importFrom "._rheader" fourNames]

/-- Import the `rheader` package: run its `__init__.py` body on an empty
namespace, given the namespace of the native `._rheader` submodule (or
`none` when that submodule is missing). -/
def runModule (rh : Option NS) : Except ImportError NS :=
  execStmts rh moduleBody []

/-- The names bound by `from rheader import *`: the contents of `__all__`
when the module defines it as a list of strings, otherwise every bound
name not starting with an underscore. -/
def starImportNames (ns : NS) : List String :=
  match NS.lookup ns "__all__" with
  | some (PyObj.strList ss) => ss
  | _ => (ns.map Prod.fst).filter (fun n => !n.startsWith "_")

/-- The namespace reached after the first two statements of the body
(the future-import and the `__all__` assignment). -/
def nsPre : NS :=
  [("__all__", PyObj.strList allList),
   ("annotations", PyObj.futureFeature "annotations")]

/-- The lines of `src/python/rheader/__init__.py`, verbatim. -/
def initFileLines : List String :=
  ["#!/usr/bin/env python",
   "# -*- coding: utf-8 -*-",
   "#",
   "# @Author: José Sánchez-Gallego (gallegoj@uw.edu)",
   "# @Date: 2025-12-09",
   "# @Filename: __init__.py",
   "# @License: BSD 3-clause (http://www.opensource.org/licenses/BSD-3-Clause)",
   "",
   "from __future__ import annotations",
   "",
   "__all__ = [",
   "    \"Header\",",
   "    \"Keyword\",",
   "    \"read_header\",",
   "    \"read_header_to_class\",",
   "]",
   "",
   "",
   "from ._rheader import Header, Keyword, read_header, read_header_to_class"]

/-- A statement that only binds names: an import or a literal-list
assignment, with no function or class definition and no computation. -/
def Stmt.isNameBindingOnly : Stmt → Bool
  | Stmt.futureImport _ => true
  | Stmt.assignStrList _ _ => true
  | Stmt.importFrom _ _ => true
  | Stmt.funcDef _ => false
  | Stmt.clsDef _ => false
  | Stmt.exprCall _ => false

/-- Whether a statement defines a function. -/
def Stmt.isFuncDef : Stmt → Bool
  | Stmt.funcDef _ => true
  | _ => false

/-- Whether a statement defines a class. -/
def Stmt.isClsDef : Stmt → Bool
  | Stmt.clsDef _ => true
  | _ => false

/-- Whether a statement is an import statement. -/
def Stmt.isImportStmt : Stmt → Bool
  | Stmt.futureImport _ => true
  | Stmt.importFrom _ _ => true
  | _ => false

/-- Whether a statement is the `__all__` assignment. -/
def Stmt.isAllAssign : Stmt → Bool
  | Stmt.assignStrList t _ => t == "__all__"
  | _ => false

/-- `isinstance(o, cls)` for a class object `cls` (exact class match; no
inheritance is needed for the properties below). -/
def isinstance (o : PyObj) (cls : PyObj) : Bool :=
  match cls with
  | PyObj.pyClass c => PyObj.classOf o = c
  | _ => false

/-- The `Header` class object exported by the native module. -/
def HeaderClass : PyObj := PyObj.pyClass "Header"

/-- Modelled from the spec: the native function `read_header` is absent
from the provided sources (it lives in the `_rheader` native extension);
the spec says it "parses raw bytes/text into a Header", an ordered
collection of keyword records, with `read_header(source) -> Header`.  The
model carries the parsed records and fixes the result's class to
`Header`. -/
def read_header (source : List (String × String)) : PyObj :=
  PyObj.headerObj source

/-- Modelled from the spec: the native function `read_header_to_class` is
absent from the provided sources; the spec says it "parses into a
user-supplied structured record type via field mapping", with
`read_header_to_class(source, cls) -> cls_instance`.  The model returns an
instance of the supplied class carrying the parsed fields. -/
def read_header_to_class (source : List (String × String)) (cls : PyObj) : PyObj :=
  match cls with
  | PyObj.pyClass c => PyObj.instObj c source
  | _ => PyObj.instObj (PyObj.classOf cls) source

/-- A sample namespace for the native `._rheader` submodule providing all
four expected names. -/
def rhSample : NS :=
  [("Header", PyObj.native "type" 0),
   ("Keyword", PyObj.native "type" 1),
   ("read_header", PyObj.native "builtin_function_or_method" 2),
   ("read_header_to_class", PyObj.native "builtin_function_or_method" 3)]

/-- The namespace produced by importing `rheader` against `rhSample`. -/
def nsSample : NS :=
  [("read_header_to_class", PyObj.native "builtin_function_or_method" 3),
   ("read_header", PyObj.native "builtin_function_or_method" 2),
   ("Keyword", PyObj.native "type" 1),
   ("Header", PyObj.native "type" 0),
   ("__all__", PyObj.strList allList),
   ("annotations", PyObj.futureFeature "annotations")]

lemma runModule_some_eq (rh : NS) :
    runModule (some rh) = importNames rh fourNames nsPre := by
  have h : ∀ r : Except ImportError NS,
      (match r with
        | Except.error e => Except.error e
        | Except.ok ns2 => execStmts (some rh) [] ns2) = r := by
    intro r
    cases r <;> rfl
  exact h (importNames rh fourNames nsPre)

lemma runModule_none_eq :
    runModule none = Except.error (ImportError.moduleNotFound "._rheader") := rfl

lemma importNames_lookup (m : NS) (names : List String) (ns ns2 : NS)
    (h : importNames m names ns = Except.ok ns2) (n : String) :
    NS.lookup ns2 n = if n ∈ names then NS.lookup m n else NS.lookup ns n := by
  induction names generalizing ns with
  | nil =>
    rw [importNames] at h
    injection h with h
    subst h
    simp
  | cons n0 rest ih =>
    rw [importNames] at h
    cases hm : NS.lookup m n0 with
    | none =>
      rw [hm] at h
      exact absurd h (by simp)
    | some v =>
      rw [hm] at h
      have hih := ih ((n0, v) :: ns) h
      rw [hih]
      by_cases h1 : n ∈ rest
      · simp [h1]
      · by_cases h2 : n = n0
        · subst h2
          simp [h1, NS.lookup, hm]
        · have h2s : n0 ≠ n := fun hh => h2 hh.symm
          simp [h1, h2, NS.lookup, h2s]

lemma importNames_ok_iff (m : NS) (names : List String) (ns : NS) :
    (∃ ns2, importNames m names ns = Except.ok ns2) ↔
      ∀ n, n ∈ names → (NS.lookup m n).isSome = true := by
  induction names generalizing ns with
  | nil => simp [importNames]
  | cons n0 rest ih =>
    cases hm : NS.lookup m n0 with
    | none =>
      refine iff_of_false ?_ ?_
      · rintro ⟨ns2, h⟩
        rw [importNames, hm] at h
        exact absurd h (by simp)
      · intro hall
        have h0 := hall n0 (List.mem_cons_self n0 rest)
        rw [hm] at h0
        simp at h0
    | some v =>
      rw [show (∃ ns2, importNames m (n0 :: rest) ns = Except.ok ns2) ↔
            (∃ ns2, importNames m rest ((n0, v) :: ns) = Except.ok ns2) from by
          rw [importNames, hm]]
      rw [ih ((n0, v) :: ns)]
      constructor
      · intro hr n hn
        rcases List.mem_cons.mp hn with h1 | h2
        · subst h1
          rw [hm]
          rfl
        · exact hr n h2
      · intro hall n hn
        exact hall n (List.mem_cons_of_mem _ hn)

/-- Claim C1: importing the `rheader` package exposes exactly the four
public symbols `Header`, `Keyword`, `read_header` and
`read_header_to_class`: whenever the import succeeds, a name is in the
package's exposed public surface (its star-import list, governed by
`__all__`) if and only if it is one of those four. -/
theorem rheader_public_surface (rh ns : NS)
    (h : runModule (some rh) = Except.ok ns) (n : String) :
    n ∈ starImportNames ns ↔
      (n = "Header" ∨ n = "Keyword" ∨ n = "read_header" ∨
        n = "read_header_to_class") := by
  rw [runModule_some_eq] at h
  have hall := importNames_lookup rh fourNames nsPre ns h "__all__"
  have hnotin : "__all__" ∉ fourNames := by decide
  rw [if_neg hnotin] at hall
  have hv : NS.lookup ns "__all__" = some (PyObj.strList allList) := by
    rw [hall]
    rfl
  simp [starImportNames, hv, allList]

/-- Witness for C1 at a concrete native-module namespace. -/
theorem rheader_public_surface_witness :
    runModule (some rhSample) = Except.ok nsSample ∧
      ("Keyword" ∈ starImportNames nsSample ↔
        ("Keyword" = "Header" ∨ "Keyword" = "Keyword" ∨
          "Keyword" = "read_header" ∨ "Keyword" = "read_header_to_class")) :=
  ⟨rfl, rheader_public_surface rhSample nsSample rfl "Keyword"⟩

/-- Claim C2: each of the four exported names is a pure re-export from the
native module `._rheader`: after a successful import, the object bound to
such a name in the `rheader` namespace is identical to the object of that
name in the `._rheader` namespace. -/
theorem rheader_reexport_identity (rh ns : NS)
    (h : runModule (some rh) = Except.ok ns) (n : String)
    (hn : n ∈ fourNames) :
    NS.lookup ns n = NS.lookup rh n := by
  rw [runModule_some_eq] at h
  have hl := importNames_lookup rh fourNames nsPre ns h n
  rwa [if_pos hn] at hl

/-- Witness for C2 at a concrete native-module namespace. -/
theorem rheader_reexport_identity_witness :
    runModule (some rhSample) = Except.ok nsSample ∧
      NS.lookup nsSample "read_header" = NS.lookup rhSample "read_header" :=
  ⟨rfl, rheader_reexport_identity rhSample nsSample rfl "read_header" (by decide)⟩

/-- Claim C3: the star-import surface is consistent with the import list:
`__all__` is exactly `Header`, `Keyword`, `read_header`,
`read_header_to_class`, in that order, with no duplicates, it coincides
with the name list of the `from ._rheader import ...` statement, and after
a successful import every `__all__` entry is bound in the module
namespace, so `from rheader import *` never hits a missing name. -/
theorem rheader_all_consistent (rh ns : NS)
    (h : runModule (some rh) = Except.ok ns) :
    allList.Nodup ∧ allList = fourNames ∧
      ∀ n, n ∈ allList → (NS.lookup ns n).isSome = true := by
  refine ⟨by decide, rfl, ?_⟩
  intro n hn
  rw [runModule_some_eq] at h
  have hn2 : n ∈ fourNames := hn
  have hsome := (importNames_ok_iff rh fourNames nsPre).mp ⟨ns, h⟩ n hn2
  have hl := importNames_lookup rh fourNames nsPre ns h n
  rw [if_pos hn2] at hl
  rw [hl]
  exact hsome

/-- Witness for C3 at a concrete native-module namespace. -/
theorem rheader_all_consistent_witness :
    runModule (some rhSample) = Except.ok nsSample ∧
      (allList.Nodup ∧ allList = fourNames ∧
        ∀ n, n ∈ allList → (NS.lookup nsSample n).isSome = true) :=
  ⟨rfl, rheader_all_consistent rhSample nsSample rfl⟩

/-- Claim C4: the package initializer is pure glue: every statement of its
module body only binds names (the `__all__` assignment and import
statements), and none of them defines a function or a class or performs a
computation. -/
theorem rheader_pure_glue :
    moduleBody.all Stmt.isNameBindingOnly = true ∧
      moduleBody.all
        (fun s => !(Stmt.isFuncDef s) && !(Stmt.isClsDef s)) = true := by
  decide

/-- Claim C5: importing `rheader` succeeds if and only if the native
submodule `._rheader` is importable and provides all four names `Header`,
`Keyword`, `read_header`, `read_header_to_class`; in every other case
the attempt fails with an import error (no fallback, no suppression). -/
theorem rheader_import_success_iff (rh : Option NS) :
    ((∃ ns, runModule rh = Except.ok ns) ↔
      (∃ m, rh = some m ∧
        ∀ n, n ∈ fourNames → (NS.lookup m n).isSome = true)) ∧
      ((¬ ∃ ns, runModule rh = Except.ok ns) →
        ∃ e, runModule rh = Except.error e) := by
  constructor
  · cases rh with
    | none =>
      refine iff_of_false ?_ ?_
      · rintro ⟨ns, h⟩
        rw [runModule_none_eq] at h
        exact absurd h (by simp)
      · rintro ⟨m, hm, _⟩
        exact absurd hm (by simp)
    | some m =>
      rw [runModule_some_eq, importNames_ok_iff]
      constructor
      · intro hall
        exact ⟨m, rfl, hall⟩
      · rintro ⟨m2, hm2, hall⟩
        injection hm2 with hm2
        subst hm2
        exact hall
  · intro hno
    cases hr : runModule rh with
    | error e => exact ⟨e, rfl⟩
    | ok ns => exact absurd ⟨ns, hr⟩ hno

/-- Witness for C5 at a concrete native-module namespace. -/
theorem rheader_import_success_iff_witness :
    ((∃ ns, runModule (some rhSample) = Except.ok ns) ↔
      (∃ m, some rhSample = some m ∧
        ∀ n, n ∈ fourNames → (NS.lookup m n).isSome = true)) ∧
      ((¬ ∃ ns, runModule (some rhSample) = Except.ok ns) →
        ∃ e, runModule (some rhSample) = Except.error e) :=
  rheader_import_success_iff (some rhSample)

/-- Claim C6: for every accepted source, `read_header(source)` returns a
`Header` instance, and `read_header_to_class(source, cls)` returns an
instance of the user-supplied class `cls` (entry points modelled from the
spec, since the native engine is not in the provided sources). -/
theorem rheader_entry_point_types (source : List (String × String))
    (c : String) :
    isinstance (read_header source) HeaderClass = true ∧
      isinstance (read_header_to_class source (PyObj.pyClass c))
        (PyObj.pyClass c) = true := by
  constructor
  · rfl
  · simp [isinstance, read_header_to_class, PyObj.classOf]

/-- Witness for C6 at a concrete source and class. -/
theorem rheader_entry_point_types_witness :
    isinstance (read_header [("SIMPLE", "T")]) HeaderClass = true ∧
      isinstance
        (read_header_to_class [("SIMPLE", "T")] (PyObj.pyClass "MyHeader"))
        (PyObj.pyClass "MyHeader") = true :=
  rheader_entry_point_types [("SIMPLE", "T")] "MyHeader"

/-- Claim C7: the visible source of the package initializer is exactly 19
lines, and its only executable statements are the `__all__` assignment
and import statements. -/
theorem rheader_nineteen_lines :
    initFileLines.length = 19 ∧
      moduleBody.all
        (fun s => Stmt.isImportStmt s || Stmt.isAllAssign s) = true := by
  constructor
  · rfl
  · decide
